import Mathlib

/-!
Verification of the ClaraVerse simple Python executor service
(`backend/e2b-service/main_simple.py`).

The service's per-request pipeline (`execute_python_code` and the three
FastAPI endpoints built on it) is embedded shallowly: Python strings become
`List Char` (Python `str` is a sequence of code points and slicing/splitting
operate on code points), the filesystem and child-process effects become an
explicit environment record describing what the OS returned, and raised
exceptions become `Except` errors.  Directory creation and removal are
recorded as an event trace so lifecycle claims can be stated.
-/

/-- Python `str` values are sequences of code points. -/
abbrev Str := List Char

/-- Coerce a Lean string literal to the code-point model. -/
def str (s : String) : Str := s.data

/-- Python substring test `pat in s`. -/
def containsSub (pat : Str) : Str → Bool
  | [] => pat.isPrefixOf []
  | c :: t => pat.isPrefixOf (c :: t) || containsSub pat t

/-- Python `s.split("\n")`: splits on every newline; `"".split("\n") == [""]`. -/
def splitLines : Str → List Str
  | [] => [[]]
  | c :: cs =>
    match splitLines cs with
    | [] => [[]]
    | p :: ps => if c = '\n' then [] :: p :: ps else (c :: p) :: ps

/-- Python `"\n".join(parts)`. -/
def joinLines : List Str → Str
  | [] => []
  | [l] => l
  | l :: ls => l ++ '\n' :: joinLines (ls)

/-- `MAX_OUTPUT_SIZE = 100 * 1024` (main_simple.py line 60). -/
def MAX_OUTPUT_SIZE : Nat := 100 * 1024

/-- `proc.stdout[:MAX_OUTPUT_SIZE] if proc.stdout else ""` (lines 228-229):
Python slicing of a `str` keeps the first `MAX_OUTPUT_SIZE` code points. -/
def truncateOutput (s : Str) : Str := s.take MAX_OUTPUT_SIZE

/-- The internal plot marker `[PLOT_SAVED]` emitted by the wrapper code. -/
def plotMarker : Str := str "[PLOT_SAVED]"

/-- The filter applied per line at lines 260-262:
`line for line in lines if not line.startswith("[PLOT_SAVED]")`. -/
def keepLine (l : Str) : Bool := !(plotMarker.isPrefixOf l)

/-- Lines 257-262: when the captured stdout is non-empty, split it on
newlines, drop every line starting with the marker, and re-join. -/
def stripPlotSaved (s : Str) : Str :=
  if s = [] then s
  else joinLines ((splitLines s).filter keepLine)

/-- Python `parts[-2]`: second-to-last element, `IndexError` (`none`) when
the list has fewer than two elements. -/
def pyIdxNeg2 (l : List Str) : Option Str :=
  if l.length ≥ 2 then l.get? (l.length - 2) else none

/-- Lines 231-237: heuristic extraction of the error message from the
truncated stderr of a non-zero, non-timeout exit.  `Except.error ()` models
the uncaught `IndexError` raised by `stderr.split("\n")[-2]` when the split
has a single element. -/
def extractError (stderr : Str) : Except Unit Str :=
  if containsSub (str "Error:") stderr then
    if stderr ≠ [] then
      match pyIdxNeg2 (splitLines stderr) with
      | some l => Except.ok l
      | none => Except.error ()
    else Except.ok (str "Execution failed")
  else
    Except.ok (if stderr = [] then str "Execution failed with non-zero exit code" else stderr)

/-- Index of the last occurrence of `c` in `l` (Python `str.rfind`),
`none` when absent. -/
def lastIdxOf (c : Char) (l : Str) : Option Nat :=
  match l.reverse.findIdx? (fun x => x = c) with
  | none => none
  | some j => some (l.length - 1 - j)

/-- `pathlib.PurePath.suffix`: the extension from the last dot when that dot
is neither the first nor the last character of the name, else empty. -/
def suffixOf (name : Str) : Str :=
  match lastIdxOf '.' name with
  | none => []
  | some i => if 0 < i ∧ i < name.length - 1 then name.drop i else []

/-- Python `str.lower()` on the suffix (ASCII case folding suffices here). -/
def suffixLower (name : Str) : Str := (suffixOf name).map Char.toLower

/-- A directory entry seen by the collector: its final name, whether it is a
regular file, and the bytes a read would return (`none`: reading raises). -/
structure FileEntry where
  name : Str
  isFile : Bool
  content : Option (List Nat)
deriving DecidableEq

/-- `open(path, "rb").read()`: raises (`none`) on a non-regular file or on
any read failure. -/
def readBytes (e : FileEntry) : Option (List Nat) :=
  if e.isFile then e.content else none

/-- Standard base64 alphabet. -/
def base64Alphabet : Str :=
  str "ABCDEFGHIJKLMNOPQRSTUVWXYZabcdefghijklmnopqrstuvwxyz0123456789+/"

/-- One base64 output character for a 6-bit group. -/
def b64Char (i : Nat) : Char := base64Alphabet.getD i '?'

/-- `base64.b64encode` on a byte list (bytes taken mod 256 implicitly by the
caller supplying byte values). -/
def b64Encode : List Nat → Str
  | [] => []
  | [b1] => [b64Char (b1 / 4), b64Char (b1 % 4 * 16), '=', '=']
  | [b1, b2] => [b64Char (b1 / 4), b64Char (b1 % 4 * 16 + b2 / 16), b64Char (b2 % 16 * 4), '=']
  | b1 :: b2 :: b3 :: rest =>
    b64Char (b1 / 4) :: b64Char (b1 % 4 * 16 + b2 / 16) ::
      b64Char (b2 % 16 * 4 + b3 / 64) :: b64Char (b3 % 64) :: b64Encode rest

/-- `PlotResult` (lines 73-75). -/
structure PlotResult where
  format : Str
  data : Str
deriving DecidableEq

/-- `FileResult` (lines 94-97). -/
structure FileResult where
  filename : Str
  data : Str
  size : Nat
deriving DecidableEq

/-- `plot_dir.glob("*.png")` / `exec_dir.glob("*.png")` name test: the entry
name ends with `.png` (glob patterns are case-sensitive). -/
def pngName (e : FileEntry) : Bool := (str ".png").isSuffixOf e.name

/-- The plot-collection loop (lines 244-255): each candidate is opened and
read; any failure is logged and that entry alone is skipped. -/
def collectPlotsLoop : List FileEntry → List PlotResult
  | [] => []
  | e :: rest =>
    match readBytes e with
    | some b => ⟨str "png", b64Encode b⟩ :: collectPlotsLoop rest
    | none => collectPlotsLoop rest

/-- Line 244: candidates are the `*.png` matches of the plots directory
followed by the `*.png` matches of the workspace root, in discovery order. -/
def collectPlots (plotsDir rootDir : List FileEntry) : List PlotResult :=
  collectPlotsLoop (plotsDir.filter pngName ++ rootDir.filter pngName)

/-- Lines 266-267: an entry is considered for file collection when it is a
regular file, is not the source file `script.py`, and its lower-cased suffix
is neither `.png` nor `.pyc`. -/
def fileCond (e : FileEntry) : Bool :=
  e.isFile && (decide (e.name ≠ str "script.py")) &&
    !(decide (suffixLower e.name = str ".png") || decide (suffixLower e.name = str ".pyc"))

/-- The file-collection loop (lines 265-278): qualifying entries are read
and base64-encoded with their byte length; a read failure skips only that
entry. -/
def collectFilesLoop : List FileEntry → List FileResult
  | [] => []
  | e :: rest =>
    if fileCond e then
      match readBytes e with
      | some b => ⟨e.name, b64Encode b, b.length⟩ :: collectFilesLoop rest
      | none => collectFilesLoop rest
    else collectFilesLoop rest

/-- `collect` over the workspace root directory listing. -/
def collectFiles (rootDir : List FileEntry) : List FileResult :=
  collectFilesLoop rootDir

/-- Outcome of the `pip install` child process (lines 194-199): either it
ran to completion with captured streams and an exit code, or
`subprocess.run` raised `TimeoutExpired` after its fixed 60-second limit. -/
inductive InstallOutcome where
  | ran (out err : Str) (returncode : Int)
  | timedOut
deriving DecidableEq

/-- Outcome of the main execution child process (lines 220-226): completion
with captured streams and an exit code, or `TimeoutExpired`.  On a timeout
the OS-captured partial streams are carried on the exception object
(`e.stdout` / `e.stderr`); the code never reads them, but the model keeps
them so claims about "output captured up to the kill point" can be stated. -/
inductive RunOutcome where
  | completed (out err : Str) (returncode : Int)
  | timedOut (outSoFar errSoFar : Str)
deriving DecidableEq

/-- Everything the outside world decides during one `execute_python_code`
call: the generated directory id, the dependency list, what the installer
and the execution child did, whether an unexpected exception is raised
while writing/spawning the script or during collection, and the directory
listings the collector sees afterwards. -/
structure Env where
  execId : Str
  deps : List Str
  installOutcome : InstallOutcome
  execFault : Bool
  runOutcome : RunOutcome
  collectFault : Bool
  plotsDir : List FileEntry
  rootDir : List FileEntry
deriving DecidableEq

/-- An exception escaping the request handler (the caller then sees an HTTP
500, not a response object). -/
inductive PyFault where
  | unexpectedExec
  | unexpectedCollect
  | stderrIndex
  | staging
deriving DecidableEq

/-- Filesystem lifecycle / stage events recorded by the model.
`created p withPlots`: `mkdir` of directory `p` (with a `plots/`
subdirectory when `withPlots`).  `removed p`: successful `shutil.rmtree(p)`.
`removeFailedLogged p`: `rmtree` raised and the handler logged a warning
(line 285).  `removeFailedSilent p`: `rmtree` raised inside a bare
`except: pass` (line 375-376). -/
inductive Ev where
  | created (path : Str) (withPlots : Bool)
  | installerSpawned
  | execSpawned
  | removed (path : Str)
  | removeFailedLogged (path : Str)
  | removeFailedSilent (path : Str)
deriving DecidableEq

/-- The `result` dict built by `execute_python_code` (lines 172-180); the
wall-clock `execution_time` field is outside the embedding. -/
structure PyResult where
  stdout : Str
  stderr : Str
  error : Option Str
  plots : List PlotResult
  files : List FileResult
  install_output : Str
deriving DecidableEq

/-- Line 240: `f"Execution timed out after {timeout} seconds"`. -/
def timeoutMsg (t : Int) : Str :=
  str "Execution timed out after " ++ (toString t).data ++ str " seconds"

/-- Line 241: `f"TimeoutError: Code execution exceeded {timeout} second limit"`. -/
def timeoutStderr (t : Int) : Str :=
  str "TimeoutError: Code execution exceeded " ++ (toString t).data ++ str " second limit"

/-- Lines 218-241: outcome of the execution child process as recorded in the
result dict — either captured-and-truncated streams with an error derived
from the exit code (where the heuristic may itself raise), or the fixed
timeout error and synthetic stderr.  The partial streams captured up to the
kill point, carried on the `TimeoutExpired` exception, are not consulted. -/
def runResult (r0 : PyResult) (env : Env) (timeout : Int) : Except PyFault PyResult :=
  match env.runOutcome with
  | RunOutcome.completed out err rc =>
    let stdout := truncateOutput out
    let stderr := truncateOutput err
    if rc ≠ 0 then
      match extractError stderr with
      | Except.ok e => Except.ok { r0 with stdout := stdout, stderr := stderr, error := some e }
      | Except.error _ => Except.error PyFault.stderrIndex
    else Except.ok { r0 with stdout := stdout, stderr := stderr }
  | RunOutcome.timedOut _ _ =>
    Except.ok { r0 with error := some (timeoutMsg timeout), stderr := timeoutStderr timeout }

/-- Lines 243-278: after the run, collect plots, strip marker lines from
the captured stdout and collect the remaining files (unless an unexpected
exception interrupts collection). -/
def collectStep (r1 : PyResult) (env : Env) : Except PyFault PyResult :=
  if env.collectFault then Except.error PyFault.unexpectedCollect
  else
    Except.ok { r1 with
        plots := collectPlots env.plotsDir env.rootDir
        stdout := stripPlotSaved r1.stdout
        files := collectFiles env.rootDir }

/-- Lines 211-278: write the wrapped script, run it with the deadline,
derive stdout/stderr/error, then collect.  `r0` is the result dict as left
by the install stage. -/
def execStage (r0 : PyResult) (env : Env) (timeout : Int) :
    Except PyFault PyResult × List Ev :=
  if env.execFault then (Except.error PyFault.unexpectedExec, [])
  else
    (match runResult r0 env timeout with
     | Except.error f => Except.error f
     | Except.ok r1 => collectStep r1 env,
     [Ev.execSpawned])

/-- The `result` dict as initialized at lines 172-180: empty streams, no
error, no artifacts. -/
def initResult : PyResult := ⟨[], [], none, [], [], []⟩

/-- The body of the `try:` block (lines 189-278): the optional install stage
followed by the execution/collection stage.  Early returns on install
failure carry empty stdout/stderr. -/
def runStages (env : Env) (timeout : Int) : Except PyFault PyResult × List Ev :=
  let r0 : PyResult := initResult
  match env.deps with
  | [] => execStage r0 env timeout
  | _ :: _ =>
    match env.installOutcome with
    | InstallOutcome.ran out err rc =>
      let log := out ++ err
      if rc ≠ 0 then
        (Except.ok { r0 with
            install_output := log
            error := some (str "Failed to install dependencies: " ++ log) },
         [Ev.installerSpawned])
      else
        let p := execStage { r0 with install_output := log } env timeout
        (p.1, Ev.installerSpawned :: p.2)
    | InstallOutcome.timedOut =>
      (Except.ok { r0 with error := some (str "Dependency installation timed out") },
       [Ev.installerSpawned])

/-- `execute_python_code` (lines 166-289): create `work_dir/<exec_id>` with
its `plots/` subdirectory, run the staged body, and in the `finally:` block
attempt `shutil.rmtree` exactly once — a removal failure is logged and
cannot alter the result or exception produced by the body. -/
def executePythonCode (env : Env) (workDir : Str) (timeout : Int) (cleanupOk : Bool) :
    Except PyFault PyResult × List Ev :=
  let path := workDir ++ '/' :: env.execId
  let p := runStages env timeout
  (p.1, Ev.created path true :: p.2 ++
      [if cleanupOk then Ev.removed path else Ev.removeFailedLogged path])

/-- `ExecuteResponse` (lines 78-84); the wall-clock field is outside the
embedding. -/
structure ExecuteResponse where
  success : Bool
  stdout : Str
  stderr : Str
  error : Option Str
  plots : List PlotResult
deriving DecidableEq

/-- `AdvancedExecuteResponse` (lines 100-108). -/
structure AdvancedExecuteResponse where
  success : Bool
  stdout : Str
  stderr : Str
  error : Option Str
  plots : List PlotResult
  files : List FileResult
  install_output : Str
deriving DecidableEq

/-- Response construction of `/execute` (lines 315-322) and of
`/execute-with-files` (lines 359-366): `success = result["error"] is None`;
the computed `files` list of the result dict has no counterpart field and
is dropped. -/
def mkExecuteResponse (r : PyResult) : ExecuteResponse :=
  { success := r.error.isNone
    stdout := r.stdout
    stderr := r.stderr
    error := r.error
    plots := r.plots }

/-- Response construction of `/execute-advanced` (lines 395-404). -/
def mkAdvancedResponse (r : PyResult) : AdvancedExecuteResponse :=
  { success := r.error.isNone
    stdout := r.stdout
    stderr := r.stderr
    error := r.error
    plots := r.plots
    files := r.files
    install_output := r.install_output }

/-- Lines 312 and 387: `min(request.timeout or EXECUTION_TIMEOUT,
EXECUTION_TIMEOUT)`.  Python `or` yields the right operand when the left is
falsy, i.e. `None` or `0`. -/
def effectiveTimeout (ceiling : Int) (requested : Option Int) : Int :=
  min (match requested with
       | none => ceiling
       | some t => if t = 0 then ceiling else t)
      ceiling

/-- `/execute` (lines 305-325): clamp the timeout, run the pipeline in the
shared work root with no dependencies, build an `ExecuteResponse`. -/
def executeCodeEndpoint (ceiling : Int) (reqTimeout : Option Int) (env : Env)
    (workRoot : Str) (cleanupOk : Bool) : Except PyFault ExecuteResponse × List Ev :=
  let t := effectiveTimeout ceiling reqTimeout
  let p := executePythonCode { env with deps := [] } workRoot t cleanupOk
  (p.1.map mkExecuteResponse, p.2)

/-- `/execute-advanced` (lines 380-407). -/
def executeAdvancedEndpoint (ceiling : Int) (reqTimeout : Option Int) (env : Env)
    (workRoot : Str) (cleanupOk : Bool) : Except PyFault AdvancedExecuteResponse × List Ev :=
  let t := effectiveTimeout ceiling reqTimeout
  let p := executePythonCode env workRoot t cleanupOk
  (p.1.map mkAdvancedResponse, p.2)

/-- `/execute-with-files` (lines 329-376): create an enclosing upload
directory `WORK_DIR/<id>` (no `plots/` subdirectory), stage the uploaded
files (`stagingFault` models an exception while reading or writing them),
run `execute_python_code` with the upload directory as its work root, and
in the endpoint's own `finally:` attempt `rmtree` of the upload directory
inside a bare `except: pass`. -/
def executeWithFiles (workRoot outerId : Str) (stagingFault : Bool) (env : Env)
    (timeout ceiling : Int) (cleanupOk outerCleanupOk : Bool) :
    Except PyFault ExecuteResponse × List Ev :=
  let outerPath := workRoot ++ '/' :: outerId
  let finEv := if outerCleanupOk then Ev.removed outerPath else Ev.removeFailedSilent outerPath
  if stagingFault then (Except.error PyFault.staging, [Ev.created outerPath false, finEv])
  else
    let p := executePythonCode env outerPath (min timeout ceiling) cleanupOk
    (p.1.map mkExecuteResponse, Ev.created outerPath false :: (p.2 ++ [finEv]))

/-- The directory-creation events of a trace, in order. -/
def createdEvents (evs : List Ev) : List (Str × Bool) :=
  evs.filterMap fun e =>
    match e with
    | Ev.created p w => some (p, w)
    | _ => none

/-- The paths whose recursive removal was attempted, in order (whether the
removal succeeded or failed). -/
def removeAttempts (evs : List Ev) : List Str :=
  evs.filterMap fun e =>
    match e with
    | Ev.removed p => some p
    | Ev.removeFailedLogged p => some p
    | Ev.removeFailedSilent p => some p
    | _ => none

/-! ### Lemmas about the line-splitting model -/

theorem splitLines_ne_nil (s : Str) : splitLines s ≠ [] := by
  cases s with
  | nil => simp [splitLines]
  | cons c cs =>
    simp only [splitLines]
    cases h : splitLines cs with
    | nil => simp
    | cons p ps =>
      by_cases hc : c = '\n' <;> simp [hc]

theorem newline_not_mem_splitLines (s : Str) : ∀ l ∈ splitLines s, '\n' ∉ l := by
  induction s with
  | nil => intro l hl; simp [splitLines] at hl; simp [hl]
  | cons c cs ih =>
    intro l hl
    simp only [splitLines] at hl
    cases h : splitLines cs with
    | nil => exact absurd h (splitLines_ne_nil cs)
    | cons p ps =>
      rw [h] at hl
      by_cases hc : c = '\n'
      · simp [hc] at hl
        rcases hl with hl | hl | hl
        · simp [hl]
        · exact ih l (by simp [h, hl])
        · exact ih l (by simp [h]; exact Or.inr hl)
      · simp [hc] at hl
        rcases hl with hl | hl
        · subst hl
          intro hmem
          rcases List.mem_cons.mp hmem with h1 | h1
          · exact hc h1.symm
          · exact ih p (by simp [h]) h1
        · exact ih l (by simp [h]; exact Or.inr hl)

theorem splitLines_of_no_newline (s : Str) (h : '\n' ∉ s) : splitLines s = [s] := by
  induction s with
  | nil => rfl
  | cons c cs ih =>
    simp only [List.mem_cons, not_or] at h
    simp only [splitLines, ih h.2]
    have hc : ¬ c = '\n' := fun hh => h.1 hh.symm
    simp [hc]

theorem splitLines_append_newline (a t : Str) (h : '\n' ∉ a) :
    splitLines (a ++ '\n' :: t) = a :: splitLines t := by
  induction a with
  | nil =>
    simp only [List.nil_append, splitLines]
    cases ht : splitLines t with
    | nil => exact absurd ht (splitLines_ne_nil t)
    | cons p ps => simp
  | cons c a' ih =>
    simp only [List.mem_cons, not_or] at h
    simp only [List.cons_append, splitLines]
    have hi : splitLines (a'.append ('\n' :: t)) = a' :: splitLines t := ih h.2
    rw [hi]
    have hc : ¬ c = '\n' := fun hh => h.1 hh.symm
    simp [hc]

theorem splitLines_joinLines (ls : List Str) (hne : ls ≠ [])
    (h : ∀ l ∈ ls, '\n' ∉ l) : splitLines (joinLines ls) = ls := by
  induction ls with
  | nil => exact absurd rfl hne
  | cons l ls' ih =>
    cases ls' with
    | nil =>
      simp only [joinLines]
      exact splitLines_of_no_newline l (h l (by simp))
    | cons l2 ls'' =>
      simp only [joinLines]
      rw [splitLines_append_newline l _ (h l (by simp))]
      rw [ih (by simp) (fun x hx => h x (by simp [hx]))]

theorem joinLines_splitLines (s : Str) : joinLines (splitLines s) = s := by
  induction s with
  | nil => rfl
  | cons c cs ih =>
    simp only [splitLines]
    cases h : splitLines cs with
    | nil => exact absurd h (splitLines_ne_nil cs)
    | cons p ps =>
      rw [h] at ih
      by_cases hc : c = '\n'
      · subst hc
        simp only [if_pos rfl, joinLines]
        simpa using ih
      · simp only [if_neg hc]
        cases ps with
        | nil => simp only [joinLines] at ih ⊢; rw [ih]
        | cons q ps' =>
          simp only [joinLines] at ih ⊢
          rw [List.cons_append, ih]

theorem length_joinLines (ls : List Str) :
    (joinLines ls).length = (ls.map List.length).sum + (ls.length - 1) := by
  induction ls with
  | nil => rfl
  | cons l ls' ih =>
    cases ls' with
    | nil => simp [joinLines]
    | cons l2 ls'' =>
      simp only [joinLines, List.length_append, List.length_cons, ih,
        List.map_cons, List.sum_cons, List.length_cons]
      omega

theorem length_joinLines_filter_le (p : Str → Bool) (ls : List Str) :
    (joinLines (ls.filter p)).length ≤ (joinLines ls).length := by
  rw [length_joinLines, length_joinLines]
  have h1 : ((ls.filter p).map List.length).sum ≤ (ls.map List.length).sum := by
    apply List.Sublist.sum_le_sum
    · exact List.Sublist.map List.length (List.filter_sublist ls)
    · intro a _; exact Nat.zero_le a
  have h2 : (ls.filter p).length ≤ ls.length := List.length_filter_le p ls
  omega

theorem length_stripPlotSaved_le (s : Str) :
    (stripPlotSaved s).length ≤ s.length := by
  by_cases h : s = []
  · simp [stripPlotSaved, h]
  · simp only [stripPlotSaved, if_neg h]
    calc (joinLines ((splitLines s).filter keepLine)).length
        ≤ (joinLines (splitLines s)).length := length_joinLines_filter_le _ _
      _ = s.length := by rw [joinLines_splitLines]

theorem containsSub_append_self (a p : Str) : containsSub p (a ++ p) = true := by
  induction a with
  | nil =>
    cases p with
    | nil => rfl
    | cons c t =>
      simp only [List.nil_append, containsSub]
      rw [List.isPrefixOf_iff_prefix.mpr (List.prefix_refl _)]
      simp
  | cons c a' ih =>
    simp only [List.cons_append, containsSub]
    have hh : containsSub p (a'.append p) = true := ih
    simp only [hh, Bool.or_true]

/-! ### UTF-8 byte length of returned text -/

/-- The UTF-8 byte length of a Python `str` (what `len(s.encode())` gives);
Python slicing counts code points, not these bytes. -/
def utf8Len (s : Str) : Nat := (s.map Char.utf8Size).sum

theorem utf8Len_replicate (n : Nat) (c : Char) :
    utf8Len (List.replicate n c) = n * c.utf8Size := by
  simp [utf8Len, List.map_replicate, List.sum_replicate, smul_eq_mul]

/-! ### Event-trace bookkeeping -/

theorem createdEvents_cons_created (p : Str) (w : Bool) (l : List Ev) :
    createdEvents (Ev.created p w :: l) = (p, w) :: createdEvents l := rfl

theorem createdEvents_cons_installer (l : List Ev) :
    createdEvents (Ev.installerSpawned :: l) = createdEvents l := rfl

theorem createdEvents_cons_exec (l : List Ev) :
    createdEvents (Ev.execSpawned :: l) = createdEvents l := rfl

theorem createdEvents_cons_removed (p : Str) (l : List Ev) :
    createdEvents (Ev.removed p :: l) = createdEvents l := rfl

theorem createdEvents_cons_removeFailedLogged (p : Str) (l : List Ev) :
    createdEvents (Ev.removeFailedLogged p :: l) = createdEvents l := rfl

theorem createdEvents_cons_removeFailedSilent (p : Str) (l : List Ev) :
    createdEvents (Ev.removeFailedSilent p :: l) = createdEvents l := rfl

theorem createdEvents_nil : createdEvents [] = [] := rfl

theorem createdEvents_append (a b : List Ev) :
    createdEvents (a ++ b) = createdEvents a ++ createdEvents b := by
  simp [createdEvents, List.filterMap_append]

theorem removeAttempts_cons_created (p : Str) (w : Bool) (l : List Ev) :
    removeAttempts (Ev.created p w :: l) = removeAttempts l := rfl

theorem removeAttempts_cons_installer (l : List Ev) :
    removeAttempts (Ev.installerSpawned :: l) = removeAttempts l := rfl

theorem removeAttempts_cons_exec (l : List Ev) :
    removeAttempts (Ev.execSpawned :: l) = removeAttempts l := rfl

theorem removeAttempts_cons_removed (p : Str) (l : List Ev) :
    removeAttempts (Ev.removed p :: l) = p :: removeAttempts l := rfl

theorem removeAttempts_cons_removeFailedLogged (p : Str) (l : List Ev) :
    removeAttempts (Ev.removeFailedLogged p :: l) = p :: removeAttempts l := rfl

theorem removeAttempts_cons_removeFailedSilent (p : Str) (l : List Ev) :
    removeAttempts (Ev.removeFailedSilent p :: l) = p :: removeAttempts l := rfl

theorem removeAttempts_nil : removeAttempts [] = [] := rfl

theorem removeAttempts_append (a b : List Ev) :
    removeAttempts (a ++ b) = removeAttempts a ++ removeAttempts b := by
  simp [removeAttempts, List.filterMap_append]

theorem execStage_snd (r0 : PyResult) (env : Env) (t : Int) :
    (execStage r0 env t).2 = if env.execFault then [] else [Ev.execSpawned] := by
  unfold execStage
  split <;> rfl

theorem runStages_createdEvents (env : Env) (t : Int) :
    createdEvents (runStages env t).2 = [] := by
  unfold runStages
  cases env.deps with
  | nil =>
    rw [execStage_snd]
    cases env.execFault <;> rfl
  | cons d ds =>
    cases env.installOutcome with
    | ran out err rc =>
      by_cases hrc : rc ≠ 0
      · simp only [if_pos hrc]
        rfl
      · simp only [if_neg hrc, createdEvents_cons_installer, execStage_snd]
        cases env.execFault <;> rfl
    | timedOut => rfl

theorem runStages_removeAttempts (env : Env) (t : Int) :
    removeAttempts (runStages env t).2 = [] := by
  unfold runStages
  cases env.deps with
  | nil =>
    rw [execStage_snd]
    cases env.execFault <;> rfl
  | cons d ds =>
    cases env.installOutcome with
    | ran out err rc =>
      by_cases hrc : rc ≠ 0
      · simp only [if_pos hrc]
        rfl
      · simp only [if_neg hrc, removeAttempts_cons_installer, execStage_snd]
        cases env.execFault <;> rfl
    | timedOut => rfl

theorem executePythonCode_createdEvents (env : Env) (workDir : Str) (t : Int) (co : Bool) :
    createdEvents (executePythonCode env workDir t co).2
      = [(workDir ++ '/' :: env.execId, true)] := by
  show createdEvents ((Ev.created (workDir ++ '/' :: env.execId) true :: (runStages env t).2) ++ _) = _
  rw [createdEvents_append, createdEvents_cons_created, runStages_createdEvents]
  cases co <;> rfl

theorem executePythonCode_removeAttempts (env : Env) (workDir : Str) (t : Int) (co : Bool) :
    removeAttempts (executePythonCode env workDir t co).2
      = [workDir ++ '/' :: env.execId] := by
  show removeAttempts ((Ev.created (workDir ++ '/' :: env.execId) true :: (runStages env t).2) ++ _) = _
  rw [removeAttempts_append, removeAttempts_cons_created, runStages_removeAttempts]
  cases co <;> rfl

/-! ### Characterizations of the pipeline stages -/

theorem executePythonCode_fst (env : Env) (workDir : Str) (t : Int) (co : Bool) :
    (executePythonCode env workDir t co).1 = (runStages env t).1 := rfl

theorem runStages_fst_nodeps (env : Env) (t : Int) (h : env.deps = []) :
    (runStages env t).1 = (execStage initResult env t).1 := by
  unfold runStages
  rw [h]

theorem runStages_fst_install_ok (env : Env) (t : Int) (o e : Str)
    (hd : env.deps ≠ []) (h2 : env.installOutcome = InstallOutcome.ran o e 0) :
    (runStages env t).1 = (execStage { initResult with install_output := o ++ e } env t).1 := by
  unfold runStages
  cases hds : env.deps with
  | nil => exact absurd hds hd
  | cons d ds => rw [h2]; simp

theorem runStages_install_fail (env : Env) (t : Int) (o e : Str) (rc : Int)
    (hd : env.deps ≠ []) (h2 : env.installOutcome = InstallOutcome.ran o e rc) (hrc : rc ≠ 0) :
    runStages env t =
      (Except.ok { initResult with
          install_output := o ++ e
          error := some (str "Failed to install dependencies: " ++ (o ++ e)) },
       [Ev.installerSpawned]) := by
  unfold runStages
  cases hds : env.deps with
  | nil => exact absurd hds hd
  | cons d ds => rw [h2]; simp [hrc]

theorem runStages_install_timeout (env : Env) (t : Int)
    (hd : env.deps ≠ []) (h2 : env.installOutcome = InstallOutcome.timedOut) :
    runStages env t =
      (Except.ok { initResult with error := some (str "Dependency installation timed out") },
       [Ev.installerSpawned]) := by
  unfold runStages
  cases hds : env.deps with
  | nil => exact absurd hds hd
  | cons d ds => rw [h2]

theorem execStage_timedOut_eq (r0 : PyResult) (env : Env) (t : Int) (ko ke : Str)
    (hre : env.runOutcome = RunOutcome.timedOut ko ke)
    (hef : env.execFault = false) (hcf : env.collectFault = false) :
    (execStage r0 env t).1 =
      Except.ok { stdout := stripPlotSaved r0.stdout
                  stderr := timeoutStderr t
                  error := some (timeoutMsg t)
                  plots := collectPlots env.plotsDir env.rootDir
                  files := collectFiles env.rootDir
                  install_output := r0.install_output } := by
  unfold execStage runResult collectStep
  rw [hre, hef, hcf]
  rfl

theorem execStage_ok_completed_fields (r0 : PyResult) (env : Env) (t : Int)
    (out err : Str) (rc : Int) (r : PyResult)
    (hre : env.runOutcome = RunOutcome.completed out err rc)
    (h : (execStage r0 env t).1 = Except.ok r) :
    r.stdout = stripPlotSaved (truncateOutput out) ∧ r.stderr = truncateOutput err := by
  unfold execStage at h
  cases hef : env.execFault with
  | true => rw [hef] at h; simp at h
  | false =>
    rw [hef] at h
    simp only [Bool.false_eq_true, if_false] at h
    unfold runResult at h
    rw [hre] at h
    by_cases hrc : rc ≠ 0
    · simp only [if_pos hrc] at h
      cases hx : extractError (truncateOutput err) with
      | ok e =>
        rw [hx] at h
        unfold collectStep at h
        cases hcf : env.collectFault with
        | true => rw [hcf] at h; simp at h
        | false =>
          rw [hcf] at h
          simp only [Bool.false_eq_true, if_false, Except.ok.injEq] at h
          rw [← h]
          exact ⟨rfl, rfl⟩
      | error u => rw [hx] at h; simp at h
    · simp only [if_neg hrc] at h
      unfold collectStep at h
      cases hcf : env.collectFault with
      | true => rw [hcf] at h; simp at h
      | false =>
        rw [hcf] at h
        simp only [Bool.false_eq_true, if_false, Except.ok.injEq] at h
        rw [← h]
        exact ⟨rfl, rfl⟩

theorem executePythonCode_mem_installer (env : Env) (workDir : Str) (t : Int) (co : Bool) :
    Ev.installerSpawned ∈ (executePythonCode env workDir t co).2
      ↔ Ev.installerSpawned ∈ (runStages env t).2 := by
  show Ev.installerSpawned ∈
    (Ev.created (workDir ++ '/' :: env.execId) true :: (runStages env t).2) ++ [_] ↔ _
  cases co <;> simp

theorem executePythonCode_mem_exec (env : Env) (workDir : Str) (t : Int) (co : Bool) :
    Ev.execSpawned ∈ (executePythonCode env workDir t co).2
      ↔ Ev.execSpawned ∈ (runStages env t).2 := by
  show Ev.execSpawned ∈
    (Ev.created (workDir ++ '/' :: env.execId) true :: (runStages env t).2) ++ [_] ↔ _
  cases co <;> simp

theorem executePythonCode_mem_removeFailedLogged (env : Env) (workDir : Str) (t : Int) :
    Ev.removeFailedLogged (workDir ++ '/' :: env.execId)
      ∈ (executePythonCode env workDir t false).2 := by
  show Ev.removeFailedLogged (workDir ++ '/' :: env.execId) ∈
    (Ev.created (workDir ++ '/' :: env.execId) true :: (runStages env t).2) ++ [_]
  simp

theorem runStages_nodeps_snd (env : Env) (t : Int) (h : env.deps = []) :
    (runStages env t).2 = if env.execFault then [] else [Ev.execSpawned] := by
  unfold runStages
  rw [h]
  exact execStage_snd _ env t

theorem collectPlotsLoop_eq (l : List FileEntry) :
    collectPlotsLoop l
      = l.filterMap (fun e => (readBytes e).map
          (fun b => PlotResult.mk (str "png") (b64Encode b))) := by
  induction l with
  | nil => rfl
  | cons e rest ih =>
    cases hre : readBytes e <;>
      simp [collectPlotsLoop, List.filterMap_cons, hre, ih]

theorem collectFilesLoop_eq (l : List FileEntry) :
    collectFilesLoop l
      = l.filterMap (fun e =>
          if fileCond e then
            (readBytes e).map (fun b => FileResult.mk e.name (b64Encode b) b.length)
          else none) := by
  induction l with
  | nil => rfl
  | cons e rest ih =>
    by_cases hc : fileCond e
    · cases hre : readBytes e <;>
        simp [collectFilesLoop, List.filterMap_cons, hc, hre, ih]
    · simp [collectFilesLoop, List.filterMap_cons, hc, ih]

theorem stripPlotSaved_nil : stripPlotSaved [] = [] := rfl

theorem execStage_ok_stdout_strip (r0 : PyResult) (env : Env) (t : Int) (r : PyResult)
    (h : (execStage r0 env t).1 = Except.ok r) :
    ∃ s, r.stdout = stripPlotSaved s := by
  unfold execStage at h
  cases hef : env.execFault with
  | true => rw [hef] at h; simp at h
  | false =>
    rw [hef] at h
    simp only [Bool.false_eq_true, if_false] at h
    unfold runResult at h
    cases hro : env.runOutcome with
    | completed out err rc =>
      rw [hro] at h
      by_cases hrc : rc ≠ 0
      · simp only [if_pos hrc] at h
        cases hx : extractError (truncateOutput err) with
        | ok e =>
          rw [hx] at h
          unfold collectStep at h
          cases hcf : env.collectFault with
          | true => rw [hcf] at h; simp at h
          | false =>
            rw [hcf] at h
            simp only [Bool.false_eq_true, if_false, Except.ok.injEq] at h
            exact ⟨truncateOutput out, by rw [← h]⟩
        | error u => rw [hx] at h; simp at h
      · simp only [if_neg hrc] at h
        unfold collectStep at h
        cases hcf : env.collectFault with
        | true => rw [hcf] at h; simp at h
        | false =>
          rw [hcf] at h
          simp only [Bool.false_eq_true, if_false, Except.ok.injEq] at h
          exact ⟨truncateOutput out, by rw [← h]⟩
    | timedOut ko ke =>
      rw [hro] at h
      unfold collectStep at h
      cases hcf : env.collectFault with
      | true => rw [hcf] at h; simp at h
      | false =>
        rw [hcf] at h
        simp only [Bool.false_eq_true, if_false, Except.ok.injEq] at h
        exact ⟨r0.stdout, by rw [← h]⟩

theorem runStages_ok_stdout_strip (env : Env) (t : Int) (r : PyResult)
    (h : (runStages env t).1 = Except.ok r) :
    ∃ s, r.stdout = stripPlotSaved s := by
  cases hd : env.deps with
  | nil =>
    rw [runStages_fst_nodeps env t hd] at h
    exact execStage_ok_stdout_strip _ env t r h
  | cons d ds =>
    cases hio : env.installOutcome with
    | ran o e rc =>
      by_cases hrc : rc ≠ 0
      · rw [show (runStages env t).1
            = (Except.ok { initResult with
                install_output := o ++ e
                error := some (str "Failed to install dependencies: " ++ (o ++ e)) } :
                  Except PyFault PyResult) from by
              rw [runStages_install_fail env t o e rc (by rw [hd]; simp) hio hrc]] at h
        simp only [Except.ok.injEq] at h
        exact ⟨[], by rw [← h]; rfl⟩
      · push_neg at hrc
        subst hrc
        rw [runStages_fst_install_ok env t o e (by rw [hd]; simp) hio] at h
        exact execStage_ok_stdout_strip _ env t r h
    | timedOut =>
      rw [show (runStages env t).1
          = (Except.ok { initResult with
              error := some (str "Dependency installation timed out") } :
                Except PyFault PyResult) from by
            rw [runStages_install_timeout env t (by rw [hd]; simp) hio]] at h
      simp only [Except.ok.injEq] at h
      exact ⟨[], by rw [← h]; rfl⟩

theorem stripPlotSaved_no_marker (s : Str) :
    ∀ l ∈ splitLines (stripPlotSaved s), plotMarker.isPrefixOf l = false := by
  intro l hl
  by_cases hs : s = []
  · subst hs
    rw [stripPlotSaved_nil] at hl
    simp only [splitLines, List.mem_singleton] at hl
    subst hl
    decide
  · rw [stripPlotSaved, if_neg hs] at hl
    cases hfil : (splitLines s).filter keepLine with
    | nil =>
      rw [hfil] at hl
      simp only [joinLines, splitLines, List.mem_singleton] at hl
      subst hl
      decide
    | cons p ps =>
      rw [hfil] at hl
      rw [splitLines_joinLines (p :: ps) (by simp)
        (fun x hx => newline_not_mem_splitLines s x
          (List.mem_of_mem_filter (by rw [hfil]; exact hx)))] at hl
      have hk : keepLine l = true := List.of_mem_filter (by rw [hfil]; exact hl)
      unfold keepLine at hk
      simp only [Bool.not_eq_true'] at hk
      exact hk

theorem splitLines_stripPlotSaved_eq (s : Str)
    (h : (splitLines s).filter keepLine ≠ []) :
    splitLines (stripPlotSaved s) = (splitLines s).filter keepLine := by
  by_cases hs : s = []
  · subst hs
    rw [stripPlotSaved_nil]
    decide
  · rw [stripPlotSaved, if_neg hs]
    exact splitLines_joinLines _ h
      (fun x hx => newline_not_mem_splitLines s x (List.mem_of_mem_filter hx))

theorem timeoutMsg_contains (t : Int) :
    containsSub (str "timed out after " ++ (toString t).data ++ str " seconds")
      (timeoutMsg t) = true := by
  have h : timeoutMsg t
      = str "Execution " ++ (str "timed out after " ++ (toString t).data ++ str " seconds") := by
    unfold timeoutMsg
    rw [show str "Execution timed out after "
        = str "Execution " ++ str "timed out after " from by decide]
    simp [List.append_assoc]
  rw [h]
  exact containsSub_append_self _ _

/-! ### The claims -/

/-- A small concrete environment used to instantiate theorems: no
dependencies, a clean run printing `hello`, an empty workspace. -/
def envA : Env :=
  { execId := str "id"
    deps := []
    installOutcome := InstallOutcome.timedOut
    execFault := false
    runOutcome := RunOutcome.completed (str "hello") [] 0
    collectFault := false
    plotsDir := []
    rootDir := [] }

/-- C2: for every response returned by any of the execute endpoints
(`/execute` and `/execute-with-files` build `ExecuteResponse`,
`/execute-advanced` builds `AdvancedExecuteResponse`), the success flag is
true if and only if the error field is null. -/
theorem c2_success_iff_error_none (r : PyResult) :
    ((mkExecuteResponse r).success = true ↔ (mkExecuteResponse r).error = none)
    ∧ ((mkAdvancedResponse r).success = true ↔ (mkAdvancedResponse r).error = none) := by
  cases hr : r.error <;> simp [mkExecuteResponse, mkAdvancedResponse, hr]

theorem c2_witness :
    ((mkExecuteResponse initResult).success = true ↔ (mkExecuteResponse initResult).error = none)
    ∧ ((mkAdvancedResponse initResult).success = true
        ↔ (mkAdvancedResponse initResult).error = none) :=
  c2_success_iff_error_none initResult

/-- C4 counterexample: with the default ceiling 30, a requested timeout of 0
is replaced by the ceiling — the code yields 30 where the claim
(`min(requested, ceiling)`, with requested values below the ceiling "used as
given") demands 0.  Python's `request.timeout or EXECUTION_TIMEOUT` treats 0
as falsy. -/
theorem c4_counterexample :
    effectiveTimeout 30 (some 0) = 30 ∧ min (0 : Int) 30 = 0 := by
  constructor
  · rfl
  · decide

/-- C4 (amended): the effective timeout is `min(requested, ceiling)` for
every nonzero requested value, but a requested value of 0 — like an omitted
one — is first replaced by the ceiling (Python `or` coalesces falsy values),
so 0 is not used as given. -/
theorem c4_effective_timeout (c t : Int) :
    (t ≠ 0 → effectiveTimeout c (some t) = min t c)
    ∧ effectiveTimeout c none = c
    ∧ effectiveTimeout c (some 0) = c := by
  refine ⟨fun ht => ?_, ?_, ?_⟩ <;> simp [effectiveTimeout, *]

theorem c4_witness : (1 : Int) ≠ 0 ∧ effectiveTimeout 30 (some 1) = min 1 30 :=
  ⟨by decide, (c4_effective_timeout 30 1).1 (by decide)⟩

/-- C10: the basic `ExecuteResponse` carries no files field — building it
ignores the `files` list computed into the result dict — while the advanced
response returns exactly the collected files; the `/execute` endpoint
response is the basic construction applied to the pipeline result. -/
theorem c10_basic_endpoint_drops_files (r : PyResult) (fs : List FileResult)
    (env : Env) (ceiling : Int) (reqT : Option Int) (workRoot : Str) (co : Bool) :
    mkExecuteResponse { r with files := fs } = mkExecuteResponse r
    ∧ (mkAdvancedResponse r).files = r.files
    ∧ (executeCodeEndpoint ceiling reqT env workRoot co).1
        = ((executePythonCode { env with deps := [] } workRoot
            (effectiveTimeout ceiling reqT) co).1).map mkExecuteResponse :=
  ⟨rfl, rfl, rfl⟩

/-- C7: no line of the stdout text returned to the caller begins with the
`[PLOT_SAVED]` marker: the stripping pass removes every marker line from the
captured (already truncated) stdout and keeps all other lines in order, and
every result produced by `execute_python_code` has a stdout of that
stripped form. -/
theorem c7_no_marker_lines :
    (∀ s : Str, ∀ l ∈ splitLines (stripPlotSaved s), plotMarker.isPrefixOf l = false)
    ∧ (∀ s : Str, (splitLines s).filter keepLine ≠ [] →
        splitLines (stripPlotSaved s) = (splitLines s).filter keepLine)
    ∧ (∀ (env : Env) (workDir : Str) (t : Int) (co : Bool) (r : PyResult),
        (executePythonCode env workDir t co).1 = Except.ok r →
        ∀ l ∈ splitLines r.stdout, plotMarker.isPrefixOf l = false) := by
  refine ⟨stripPlotSaved_no_marker, splitLines_stripPlotSaved_eq, ?_⟩
  intro env workDir t co r h l hl
  rw [executePythonCode_fst] at h
  obtain ⟨s, hs⟩ := runStages_ok_stdout_strip env t r h
  rw [hs] at hl
  exact stripPlotSaved_no_marker s l hl

theorem c7_witness :
    plotMarker.isPrefixOf (str "hello") = false
    ∧ splitLines (stripPlotSaved (str "hello\n[PLOT_SAVED]/tmp/p.png\nworld"))
        = (splitLines (str "hello\n[PLOT_SAVED]/tmp/p.png\nworld")).filter keepLine :=
  ⟨c7_no_marker_lines.1 (str "hello\n[PLOT_SAVED]/tmp/p.png\nworld") (str "hello") (by decide),
   c7_no_marker_lines.2.1 (str "hello\n[PLOT_SAVED]/tmp/p.png\nworld") (by decide)⟩

/-- C8 (amended): on a non-zero non-timeout exit, when "Error:" occurs in
the truncated stderr and the newline split has at least two elements, the
reported error is the element preceding the last; when "Error:" occurs but
the stderr is a single line, the handler raises an uncaught IndexError
(`stderr.split("\n")[-2]` on a one-element list) and no error value is
reported at all; when "Error:" does not occur, the error is the raw stderr,
or the generic fallback message when stderr is empty. -/
theorem c8_error_heuristic (e : Str) :
    (∀ l, containsSub (str "Error:") e = true → 2 ≤ (splitLines e).length →
       (splitLines e).get? ((splitLines e).length - 2) = some l →
       extractError e = Except.ok l)
    ∧ (containsSub (str "Error:") e = true → (splitLines e).length < 2 →
       extractError e = Except.error ())
    ∧ (containsSub (str "Error:") e = false → e ≠ [] → extractError e = Except.ok e)
    ∧ (e = [] → extractError e = Except.ok (str "Execution failed with non-zero exit code")) := by
  have hnil : containsSub (str "Error:") [] = false := rfl
  refine ⟨?_, ?_, ?_, ?_⟩
  · intro l h1 h2 h3
    have hne : e ≠ [] := by
      intro he; subst he; rw [hnil] at h1; cases h1
    unfold extractError pyIdxNeg2
    rw [if_pos h1, if_pos hne, if_pos h2, h3]
  · intro h1 hlt
    have hne : e ≠ [] := by
      intro he; subst he; rw [hnil] at h1; cases h1
    unfold extractError pyIdxNeg2
    rw [if_pos h1, if_pos hne, if_neg (by omega)]
  · intro h1 hne
    unfold extractError
    rw [if_neg (by simp [h1]), if_neg hne]
  · intro he
    subst he
    rfl

/-- Environment whose child exits 1 with the single-line stderr
`Error: boom` and no newline. -/
def envE : Env := { envA with runOutcome := RunOutcome.completed [] (str "Error: boom") 1 }

/-- C8 counterexample: stderr `Error: boom` (one line, contains "Error:"):
the claim promises the reported error is the line preceding the last, but
the split has a single element, `[-2]` raises IndexError, and the whole
request aborts with no reported error — seen end-to-end as the
`stderrIndex` fault escaping `execute_python_code`. -/
theorem c8_counterexample :
    containsSub (str "Error:") (str "Error: boom") = true
    ∧ extractError (str "Error: boom") = Except.error ()
    ∧ (executePythonCode envE (str "/w") 5 true).1 = Except.error PyFault.stderrIndex := by
  refine ⟨by decide, by rfl, by rfl⟩

theorem c8_witness :
    extractError (str "Error: boom\nlast") = Except.ok (str "Error: boom") :=
  (c8_error_heuristic (str "Error: boom\nlast")).1 (str "Error: boom")
    (by decide) (by decide) (by decide)

/-- C9 (amended): after execution the collector returns, in discovery order,
one base64 `png` Plot for every readable `*.png`-named entry of the plots
subdirectory followed by those of the workspace root; and one FileArtifact
(filename, base64 data, byte length) for every readable regular file of the
workspace root other than the source `script.py`, files with suffix `.png`
(case-insensitively), and compiled bytecode `.pyc` files — the last
exclusion is absent from the original claim; a read failure of any single
entry skips only that entry. -/
theorem c9_collector (pd rd : List FileEntry) (xs ys : List FileEntry) (e : FileEntry) :
    collectPlots pd rd
      = (pd.filter pngName ++ rd.filter pngName).filterMap
          (fun e2 => (readBytes e2).map (fun b => PlotResult.mk (str "png") (b64Encode b)))
    ∧ (∀ p ∈ collectPlots pd rd, p.format = str "png")
    ∧ collectFiles rd
        = rd.filterMap (fun e2 =>
            if fileCond e2 then
              (readBytes e2).map (fun b => FileResult.mk e2.name (b64Encode b) b.length)
            else none)
    ∧ (readBytes e = none →
        collectPlotsLoop (xs ++ e :: ys) = collectPlotsLoop (xs ++ ys)
        ∧ collectFilesLoop (xs ++ e :: ys) = collectFilesLoop (xs ++ ys)) := by
  refine ⟨collectPlotsLoop_eq _, ?_, collectFilesLoop_eq _, fun hrb => ⟨?_, ?_⟩⟩
  · intro p hp
    rw [collectPlots, collectPlotsLoop_eq] at hp
    obtain ⟨a, _, ha⟩ := List.mem_filterMap.mp hp
    cases hb : readBytes a with
    | none => rw [hb] at ha; simp at ha
    | some b =>
      rw [hb] at ha
      have ha2 : PlotResult.mk (str "png") (b64Encode b) = p := by simpa using ha
      rw [← ha2]
  · rw [collectPlotsLoop_eq, collectPlotsLoop_eq]
    simp [List.filterMap_append, List.filterMap_cons, hrb]
  · rw [collectFilesLoop_eq, collectFilesLoop_eq]
    by_cases hc : fileCond e <;>
      simp [List.filterMap_append, List.filterMap_cons, hrb, hc]

/-- A compiled-bytecode file sitting in the workspace root. -/
def pycEntry : FileEntry := ⟨str "a.pyc", true, some [1, 2, 3]⟩

/-- C9 counterexample: `a.pyc` is a readable regular file in the workspace
root, is not the source file and is not an image file, yet the collector
returns no FileArtifact for it — the code also excludes `.pyc` files,
which the claim does not allow. -/
theorem c9_counterexample :
    pycEntry.isFile = true
    ∧ pycEntry.name ≠ str "script.py"
    ∧ suffixLower pycEntry.name ≠ str ".png"
    ∧ readBytes pycEntry = some [1, 2, 3]
    ∧ collectFiles [pycEntry] = [] := by
  refine ⟨rfl, by decide, by decide, rfl, rfl⟩

/-- A plot file whose read raises. -/
def badPng : FileEntry := ⟨str "b.png", true, none⟩

theorem c9_witness :
    readBytes badPng = none
    ∧ collectPlotsLoop ([] ++ badPng :: []) = collectPlotsLoop ([] ++ [])
    ∧ collectFilesLoop ([] ++ badPng :: []) = collectFilesLoop ([] ++ []) :=
  ⟨rfl, ((c9_collector [] [] [] [] badPng).2.2.2 rfl).1,
    ((c9_collector [] [] [] [] badPng).2.2.2 rfl).2⟩

/-- C5: with a non-empty dependency list, a non-zero installer exit returns
early with `Failed to install dependencies: <combined log>` as the error
and sets the install log, an installer timeout returns early with the fixed
timeout error, and in both cases the execution stage never runs and the
returned stdout and stderr are the (empty) initial values; with an empty
dependency list, no installer process is spawned at all. -/
theorem c5_install_short_circuit (env : Env) (workDir : Str) (t : Int) (co : Bool)
    (o e : Str) (rc : Int) :
    (env.deps ≠ [] → env.installOutcome = InstallOutcome.ran o e rc → rc ≠ 0 →
      (executePythonCode env workDir t co).1
        = Except.ok { initResult with
            install_output := o ++ e
            error := some (str "Failed to install dependencies: " ++ (o ++ e)) }
      ∧ Ev.execSpawned ∉ (executePythonCode env workDir t co).2)
    ∧ (env.deps ≠ [] → env.installOutcome = InstallOutcome.timedOut →
      (executePythonCode env workDir t co).1
        = Except.ok { initResult with
            error := some (str "Dependency installation timed out") }
      ∧ Ev.execSpawned ∉ (executePythonCode env workDir t co).2)
    ∧ (env.deps = [] → Ev.installerSpawned ∉ (executePythonCode env workDir t co).2)
    ∧ initResult.stdout = [] ∧ initResult.stderr = [] := by
  refine ⟨fun hd h2 hrc => ⟨?_, ?_⟩, fun hd h2 => ⟨?_, ?_⟩, fun hd => ?_, rfl, rfl⟩
  · rw [executePythonCode_fst, runStages_install_fail env t o e rc hd h2 hrc]
  · rw [executePythonCode_mem_exec, runStages_install_fail env t o e rc hd h2 hrc]
    simp
  · rw [executePythonCode_fst, runStages_install_timeout env t hd h2]
  · rw [executePythonCode_mem_exec, runStages_install_timeout env t hd h2]
    simp
  · rw [executePythonCode_mem_installer, runStages_nodeps_snd env t hd]
    cases env.execFault <;> simp

/-- Environment requesting a nonexistent package whose install exits 1. -/
def envI : Env :=
  { envA with
      deps := [str "nonexistent-package-xyz"]
      installOutcome := InstallOutcome.ran (str "pip error log") [] 1 }

theorem c5_witness :
    (executePythonCode envI (str "/w") 5 true).1
      = Except.ok { initResult with
          install_output := str "pip error log" ++ []
          error := some (str "Failed to install dependencies: " ++ (str "pip error log" ++ [])) }
    ∧ Ev.execSpawned ∉ (executePythonCode envI (str "/w") 5 true).2
    ∧ Ev.installerSpawned ∉ (executePythonCode envA (str "/w") 5 true).2 :=
  ⟨((c5_install_short_circuit envI (str "/w") 5 true (str "pip error log") [] 1).1
      (by decide) rfl (by decide)).1,
   ((c5_install_short_circuit envI (str "/w") 5 true (str "pip error log") [] 1).1
      (by decide) rfl (by decide)).2,
   (c5_install_short_circuit envA (str "/w") 5 true [] [] 0).2.2.1 rfl⟩

/-- The install log carried in the result dict when the run reaches the
execution stage: empty when no dependencies were requested, else the
installer's combined stdout+stderr. -/
def installLog (env : Env) : Str :=
  match env.deps, env.installOutcome with
  | [], _ => []
  | _ :: _, InstallOutcome.ran o e _ => o ++ e
  | _ :: _, InstallOutcome.timedOut => []

/-- The result returned for a timed-out execution: empty stdout, synthetic
stderr, the fixed timeout error, and the artifacts collected from the
workspace after the kill. -/
def timeoutResult (env : Env) (t : Int) : PyResult :=
  { stdout := []
    stderr := timeoutStderr t
    error := some (timeoutMsg t)
    plots := collectPlots env.plotsDir env.rootDir
    files := collectFiles env.rootDir
    install_output := installLog env }

/-- C3 (amended): when the execution child exceeds the deadline the result
carries the fixed error `Execution timed out after {timeout} seconds` (so
for timeout 1 the error contains "timed out after 1 seconds"), success is
false, and the plots and files found in the workspace are still collected
and returned — but the stdout and stderr captured up to the kill point are
not returned: the returned stdout is empty and the returned stderr is the
synthetic message `TimeoutError: Code execution exceeded {timeout} second
limit`. -/
theorem c3_timeout_result (env : Env) (workDir : Str) (t : Int) (co : Bool) (ko ke : Str)
    (hre : env.runOutcome = RunOutcome.timedOut ko ke)
    (hef : env.execFault = false) (hcf : env.collectFault = false)
    (hok : env.deps = [] ∨ ∃ o e, env.installOutcome = InstallOutcome.ran o e 0) :
    (executePythonCode env workDir t co).1 = Except.ok (timeoutResult env t)
    ∧ (timeoutResult env t).error = some (timeoutMsg t)
    ∧ (mkExecuteResponse (timeoutResult env t)).success = false
    ∧ (timeoutResult env t).stdout = []
    ∧ (timeoutResult env t).stderr = timeoutStderr t
    ∧ (timeoutResult env t).plots = collectPlots env.plotsDir env.rootDir
    ∧ (timeoutResult env t).files = collectFiles env.rootDir
    ∧ containsSub (str "timed out after " ++ (toString t).data ++ str " seconds")
        (timeoutMsg t) = true := by
  refine ⟨?_, rfl, rfl, rfl, rfl, rfl, rfl, timeoutMsg_contains t⟩
  rw [executePythonCode_fst]
  by_cases hd : env.deps = []
  · rw [runStages_fst_nodeps env t hd,
      execStage_timedOut_eq initResult env t ko ke hre hef hcf]
    have hlog : installLog env = [] := by
      unfold installLog
      rw [hd]
    unfold timeoutResult
    rw [hlog]
    rfl
  · rcases hok with h | ⟨o, e, h2⟩
    · exact absurd h hd
    · obtain ⟨d, ds, hds⟩ := List.exists_cons_of_ne_nil hd
      rw [runStages_fst_install_ok env t o e hd h2,
        execStage_timedOut_eq _ env t ko ke hre hef hcf]
      have hlog : installLog env = o ++ e := by
        unfold installLog
        rw [hds, h2]
      unfold timeoutResult
      rw [hlog]
      rfl

/-- Environment whose child is killed at the deadline after writing partial
output to both streams. -/
def envT : Env :=
  { envA with runOutcome := RunOutcome.timedOut (str "partial out") (str "partial err") }

/-- C3 counterexample: the child wrote "partial out" / "partial err" before
the kill (carried on the TimeoutExpired exception), yet the returned result
has empty stdout and the synthetic stderr — the output captured up to the
kill point is discarded, not returned. -/
theorem c3_counterexample :
    envT.runOutcome = RunOutcome.timedOut (str "partial out") (str "partial err")
    ∧ (executePythonCode envT (str "/w") 1 true).1
        = Except.ok { initResult with
            error := some (timeoutMsg 1)
            stderr := timeoutStderr 1 }
    ∧ str "partial out" ≠ ([] : Str)
    ∧ timeoutStderr 1 ≠ str "partial err" := by
  refine ⟨rfl, by rfl, by decide, by decide⟩

theorem c3_witness :
    (executePythonCode envT (str "/w") 1 true).1 = Except.ok (timeoutResult envT 1)
    ∧ containsSub (str "timed out after 1 seconds") (timeoutMsg 1) = true :=
  ⟨(c3_timeout_result envT (str "/w") 1 true (str "partial out") (str "partial err")
      rfl rfl rfl (Or.inl rfl)).1,
   by decide⟩

/-- C6 (amended): for any executed program that runs to completion, the
returned stdout and stderr each hold at most `MAX_OUTPUT_SIZE` = 102400
code points — the cap is applied independently to each captured stream by
Python slicing, which counts characters, not bytes, so the UTF-8 byte
length may exceed 100 KiB for non-ASCII output. -/
theorem c6_output_cap (env : Env) (workDir : Str) (t : Int) (co : Bool)
    (out err : Str) (rc : Int) (r : PyResult)
    (hre : env.runOutcome = RunOutcome.completed out err rc)
    (h : (executePythonCode env workDir t co).1 = Except.ok r) :
    r.stdout.length ≤ MAX_OUTPUT_SIZE ∧ r.stderr.length ≤ MAX_OUTPUT_SIZE := by
  rw [executePythonCode_fst] at h
  have htr : ∀ s : Str, (truncateOutput s).length ≤ MAX_OUTPUT_SIZE := by
    intro s
    unfold truncateOutput
    exact List.length_take_le _ _
  cases hd : env.deps with
  | nil =>
    rw [runStages_fst_nodeps env t hd] at h
    obtain ⟨h1, h2⟩ := execStage_ok_completed_fields initResult env t out err rc r hre h
    rw [h1, h2]
    exact ⟨le_trans (length_stripPlotSaved_le _) (htr out), htr err⟩
  | cons d ds =>
    cases hio : env.installOutcome with
    | ran o e rc2 =>
      by_cases hrc2 : rc2 ≠ 0
      · rw [show (runStages env t).1
            = (Except.ok { initResult with
                install_output := o ++ e
                error := some (str "Failed to install dependencies: " ++ (o ++ e)) } :
                  Except PyFault PyResult) from by
              rw [runStages_install_fail env t o e rc2 (by rw [hd]; simp) hio hrc2]] at h
        simp only [Except.ok.injEq] at h
        rw [← h]
        exact ⟨Nat.zero_le _, Nat.zero_le _⟩
      · push_neg at hrc2
        subst hrc2
        rw [runStages_fst_install_ok env t o e (by rw [hd]; simp) hio] at h
        obtain ⟨h1, h2⟩ := execStage_ok_completed_fields _ env t out err rc r hre h
        rw [h1, h2]
        exact ⟨le_trans (length_stripPlotSaved_le _) (htr out), htr err⟩
    | timedOut =>
      rw [show (runStages env t).1
          = (Except.ok { initResult with
              error := some (str "Dependency installation timed out") } :
                Except PyFault PyResult) from by
            rw [runStages_install_timeout env t (by rw [hd]; simp) hio]] at h
      simp only [Except.ok.injEq] at h
      rw [← h]
      exact ⟨Nat.zero_le _, Nat.zero_le _⟩

/-- U+20AC, a three-byte character in UTF-8. -/
def euroChar : Char := Char.ofNat 8364

/-- A stream one character longer than the cap, made of euro signs. -/
def bigStream : Str := List.replicate 102401 euroChar

/-- Environment whose child exits 0 after writing `bigStream` to stderr. -/
def envBig : Env := { envA with runOutcome := RunOutcome.completed [] bigStream 0 }

/-- C6 counterexample: the returned stderr for `envBig` is the truncated
stream of 102400 euro signs, whose UTF-8 byte length is 307200 — more than
the 100 KiB = 102400-byte cap the claim states, because Python slices by
code points. -/
theorem c6_counterexample :
    (executePythonCode envBig (str "/w") 5 true).1
      = Except.ok { initResult with stderr := truncateOutput bigStream }
    ∧ utf8Len (truncateOutput bigStream) = 307200
    ∧ MAX_OUTPUT_SIZE < utf8Len (truncateOutput bigStream) := by
  have h1 : truncateOutput bigStream = List.replicate 102400 euroChar := by
    unfold truncateOutput bigStream MAX_OUTPUT_SIZE
    rw [List.take_replicate]
    norm_num
  have h3 : euroChar.utf8Size = 3 := by decide
  refine ⟨by rfl, ?_, ?_⟩
  · rw [h1, utf8Len_replicate, h3]
  · rw [h1, utf8Len_replicate, h3]
    unfold MAX_OUTPUT_SIZE
    norm_num

/-- Environment whose child exits 0 printing `hello` with stderr `oops`. -/
def envC6w : Env :=
  { envA with runOutcome := RunOutcome.completed (str "hello") (str "oops") 0 }

theorem c6_witness :
    (executePythonCode envC6w (str "/w") 5 true).1
      = Except.ok { initResult with stdout := str "hello", stderr := str "oops" }
    ∧ ({ initResult with stdout := str "hello", stderr := str "oops" } : PyResult).stdout.length
        ≤ MAX_OUTPUT_SIZE
    ∧ ({ initResult with stdout := str "hello", stderr := str "oops" } : PyResult).stderr.length
        ≤ MAX_OUTPUT_SIZE := by
  have h : (executePythonCode envC6w (str "/w") 5 true).1
      = Except.ok { initResult with stdout := str "hello", stderr := str "oops" } := by rfl
  have hc := c6_output_cap envC6w (str "/w") 5 true (str "hello") (str "oops") 0
    { initResult with stdout := str "hello", stderr := str "oops" } rfl h
  exact ⟨h, hc.1, hc.2⟩

/-- C1 (amended): each call to `execute_python_code` creates exactly one
workspace directory `<work_dir>/<id>` (with its `plots/` subdirectory) and
attempts exactly one recursive removal of exactly that directory on every
termination path — normal completion, dependency-install failure or
timeout, execution timeout, and any unexpected fault during execution or
collection — with a removal failure logged and unable to change the
returned result.  The `/execute-with-files` endpoint, however, creates a
second, enclosing upload directory `WORK_DIR/<id>` without a `plots/`
subdirectory (so a request to it creates two directories, not one), also
removed on every path, but whose removal failure is swallowed by a bare
`except: pass` instead of being logged. -/
theorem c1_workspace_lifecycle :
    (∀ (env : Env) (workDir : Str) (t : Int) (co : Bool),
      createdEvents (executePythonCode env workDir t co).2
        = [(workDir ++ '/' :: env.execId, true)]
      ∧ removeAttempts (executePythonCode env workDir t co).2
        = [workDir ++ '/' :: env.execId]
      ∧ (co = false →
          Ev.removeFailedLogged (workDir ++ '/' :: env.execId)
            ∈ (executePythonCode env workDir t co).2)
      ∧ (executePythonCode env workDir t co).1 = (executePythonCode env workDir t true).1)
    ∧ (∀ (workRoot outerId : Str) (sf : Bool) (env : Env) (t c : Int) (co oco : Bool),
      createdEvents (executeWithFiles workRoot outerId sf env t c co oco).2
        = (workRoot ++ '/' :: outerId, false)
            :: (if sf then []
                else [((workRoot ++ '/' :: outerId) ++ '/' :: env.execId, true)])
      ∧ removeAttempts (executeWithFiles workRoot outerId sf env t c co oco).2
        = (if sf then [] else [(workRoot ++ '/' :: outerId) ++ '/' :: env.execId])
            ++ [workRoot ++ '/' :: outerId]
      ∧ (oco = false →
          Ev.removeFailedSilent (workRoot ++ '/' :: outerId)
            ∈ (executeWithFiles workRoot outerId sf env t c co oco).2)) := by
  constructor
  · intro env workDir t co
    exact ⟨executePythonCode_createdEvents env workDir t co,
      executePythonCode_removeAttempts env workDir t co,
      fun hco => by subst hco; exact executePythonCode_mem_removeFailedLogged env workDir t,
      rfl⟩
  · intro workRoot outerId sf env t c co oco
    cases sf with
    | true =>
      refine ⟨?_, ?_, fun hoco => ?_⟩
      · show createdEvents [Ev.created (workRoot ++ '/' :: outerId) false, _] = _
        cases oco <;> rfl
      · show removeAttempts [Ev.created (workRoot ++ '/' :: outerId) false, _] = _
        cases oco <;> rfl
      · subst hoco
        show Ev.removeFailedSilent _ ∈ [Ev.created (workRoot ++ '/' :: outerId) false, _]
        simp
    | false =>
      refine ⟨?_, ?_, fun hoco => ?_⟩
      · show createdEvents (Ev.created (workRoot ++ '/' :: outerId) false
            :: ((executePythonCode env (workRoot ++ '/' :: outerId) (min t c) co).2 ++ [_])) = _
        rw [createdEvents_cons_created, createdEvents_append,
          executePythonCode_createdEvents]
        cases oco <;> rfl
      · show removeAttempts (Ev.created (workRoot ++ '/' :: outerId) false
            :: ((executePythonCode env (workRoot ++ '/' :: outerId) (min t c) co).2 ++ [_])) = _
        rw [removeAttempts_cons_created, removeAttempts_append,
          executePythonCode_removeAttempts]
        cases oco <;> rfl
      · subst hoco
        show Ev.removeFailedSilent _ ∈ Ev.created (workRoot ++ '/' :: outerId) false
            :: ((executePythonCode env (workRoot ++ '/' :: outerId) (min t c) co).2 ++ [_])
        simp

/-- C1 counterexample: one request to `/execute-with-files` creates two
directories — the upload directory `/w/up` without `plots/` and the nested
workspace `/w/up/id` with `plots/` — not exactly one directory of the form
`WORK_DIR/<id>` with a `plots/` subdirectory; and when removing the upload
directory fails, the failure is swallowed silently, not logged. -/
theorem c1_counterexample :
    createdEvents (executeWithFiles (str "/w") (str "up") false envA 5 30 true false).2
      = [(str "/w/up", false), (str "/w/up/id", true)]
    ∧ Ev.removeFailedSilent (str "/w/up")
        ∈ (executeWithFiles (str "/w") (str "up") false envA 5 30 true false).2 := by
  refine ⟨by decide, by decide⟩

theorem c1_witness :
    Ev.removeFailedLogged (str "/w" ++ '/' :: envA.execId)
      ∈ (executePythonCode envA (str "/w") 5 false).2
    ∧ Ev.removeFailedSilent (str "/w" ++ '/' :: str "up")
      ∈ (executeWithFiles (str "/w") (str "up") false envA 5 30 false false).2 :=
  ⟨(c1_workspace_lifecycle.1 envA (str "/w") 5 false).2.2.1 rfl,
   (c1_workspace_lifecycle.2 (str "/w") (str "up") false envA 5 30 false false).2.2 rfl⟩
